import Mathlib

/-!
Shallow embedding of the Coyote BLE device driver
(`src/device/coyote/device.py` and `src/device/coyote/pulse_generator.py`).

Stateful Python methods become pure functions on an explicit `CoyoteDevice`
state record; external effects (whether the BLE write eventually succeeds,
the current wall-clock time, the platform) are passed as parameters.
-/

namespace Coyote

/-! ### Protocol constants (`device/coyote/constants.py`) -/

/-- Command id of the B0 power/pulse frame (spec section 4.1: frame starts 0xB0). -/
def CMD_B0 : Nat := 0xB0

/-- Modelled from the spec: notification command ids from `constants.py`, which is
not under `src/`.  `decode_notification` is "keyed by the first byte" with variants
PowerUpdate, Ack, ActivePower; the source comment in `device.py` names 0x53 for the
ActivePower notification.  The exact values of the other two ids are immaterial to
the claims; they are modelled as distinct bytes. -/
def CMD_POWER_UPDATE : Nat := 0xB1

/-- Modelled from the spec: the Ack notification id (see `CMD_POWER_UPDATE`). -/
def CMD_ACK : Nat := 0xB2

/-- ActivePower notification id; the source comment at `device.py:461` calls it
the "0x53 notification". -/
def CMD_ACTIVE_POWER : Nat := 0x53

/-- Modelled from the spec: the two-bit channel-mode code for an absolute
strength set, from `constants.py` (not under `src/`).  Spec section 4.1: the
control byte carries a 2-bit mode per channel, ABSOLUTE_SET when strengths are
present.  Modelled as the nonzero 2-bit code 3. -/
def INTERP_ABSOLUTE_SET : Nat := 3

/-- Modelled from the spec: the two-bit "no change" channel-mode code (see
`INTERP_ABSOLUTE_SET`); modelled as 0. -/
def INTERP_NO_CHANGE : Nat := 0

/-- Sequence numbers wrap at 16; the spec calls it a 4-bit counter 0-15 and the
source comment reads "Wrap seq at 4 bits (0-15)". -/
def SEQUENCE_MODULO : Nat := 16

/-- Modelled from the spec: pulses per packet, from `constants.py` (not under
`src/`).  The spec says a PulsesPacket is a fixed-length sequence per channel;
the frame layout (4 header bytes + durations and intensities for both channels)
with 4 pulses per channel gives the standard 20-byte B0 frame. -/
def PULSES_PER_PACKET : Nat := 4

/-- Modelled from the spec: byte count of the zero pad sent when no (valid)
pulses are supplied, from `constants.py` (not under `src/`).  The spec says the
pad is an "equal-size zero pad" for the pulse section, which is
2 channels x 2 bytes x `PULSES_PER_PACKET` pulses = 16 bytes. -/
def B0_NO_PULSES_PAD_BYTES : Nat := 4 * PULSES_PER_PACKET

/-! ### Data types (`device/coyote/types.py`, not under `src/`) -/

/-- Modelled from the spec: connection lifecycle stages (spec section 3,
`ConnectionStage` in `types.py` which is not under `src/`). -/
inductive ConnectionStage
  | DISCONNECTED
  | SCANNING
  | CONNECTING
  | SERVICE_DISCOVERY
  | STATUS_SUBSCRIBE
  | SYNC_PARAMETERS
  | CONNECTED
deriving DecidableEq, Repr

/-- Modelled from the spec: one pulse {frequency, duration, intensity}
(`CoyotePulse` in `types.py`, not under `src/`; field use is visible in
`device.py` and `pulse_generator.py`).  Python ints, so `Int`. -/
structure CoyotePulse where
  frequency : Int
  intensity : Int
  duration : Int
deriving DecidableEq, Repr

/-- Modelled from the spec: paired per-channel pulse lists (`CoyotePulses` in
`types.py`, not under `src/`). -/
structure CoyotePulses where
  channel_a : List CoyotePulse
  channel_b : List CoyotePulse
deriving DecidableEq, Repr

/-- Modelled from the spec: absolute channel strengths (`CoyoteStrengths` in
`types.py`, not under `src/`); two non-negative integer channels. -/
structure CoyoteStrengths where
  channel_a : Nat
  channel_b : Nat
deriving DecidableEq, Repr

/-- Modelled from the spec: device parameter snapshot (`CoyoteParams` in
`types.py`, not under `src/`); six byte-sized fields, read-only to the core. -/
structure CoyoteParams where
  channel_a_limit : Nat
  channel_b_limit : Nat
  channel_a_freq_balance : Nat
  channel_b_freq_balance : Nat
  channel_a_intensity_balance : Nat
  channel_b_intensity_balance : Nat
deriving DecidableEq, Repr

/-- The spec's ChannelStrengths range invariant: both channels in [0,200]. -/
def strengthsInRange (a b : Nat) : Prop := a ≤ 200 ∧ b ≤ 200

instance (a b : Nat) : Decidable (strengthsInRange a b) := by
  unfold strengthsInRange; infer_instance

/-! ### Device state (`CoyoteDevice.__init__`, `device.py:45-78`)

The BLE client object is modelled as `client : Option Bool`: `none` when
`self.client is None`, `some c` when a client exists with `is_connected = c`.
`persisted_address` mirrors the external settings store
(`ui_settings.coyote_last_device_address`), and `settingsWrites` is a ghost
counter of `set` calls on it, used to state "written exactly once". -/

structure CoyoteDevice where
  client : Option Bool
  running : Bool
  connection_stage : ConnectionStage
  strengths_a : Nat
  strengths_b : Nat
  battery_level : Nat
  parameters : CoyoteParams
  sequence_number : Nat
  shutdown : Bool
  force_disconnect : Bool
  last_device_address : Option String
  persisted_address : String
  using_cached_address : Bool
  cached_connect_failure_count : Nat
  skip_cached_reconnect_scans : Nat
  next_scan_time : ℚ
  scan_attempt_counter : Nat
  scan_failure_streak : Nat
  connect_failure_streak : Nat
  first_active_power_seen : Bool
  settingsWrites : Nat
deriving DecidableEq, Repr

/-- `CoyoteDevice.__init__` (`device.py:45-78`): the ghost write counter starts
at 0, the stored address comes from the settings store. -/
def initDevice (params : CoyoteParams) (persisted : Option String) : CoyoteDevice where
  client := none
  running := false
  connection_stage := ConnectionStage.DISCONNECTED
  strengths_a := 0
  strengths_b := 0
  battery_level := 100
  parameters := params
  sequence_number := 1
  shutdown := false
  force_disconnect := false
  last_device_address := persisted
  persisted_address := (persisted.getD "")
  using_cached_address := false
  cached_connect_failure_count := 0
  skip_cached_reconnect_scans := 0
  next_scan_time := 0
  scan_attempt_counter := 0
  scan_failure_streak := 0
  connect_failure_streak := 0
  first_active_power_seen := false
  settingsWrites := 0

/-! ### send_command (`device.py:685-797`) -/

/-- Is one pulse intensity outside [0,100]?  (`device.py:731-732`). -/
def badPulse (p : CoyotePulse) : Bool :=
  decide (p.intensity < 0) || decide (p.intensity > 100)

/-- The pulse-validity rejection test of `device.py:730-735`: any pulse on
either channel with intensity outside [0,100] invalidates the whole packet. -/
def invalidPulses (p : CoyotePulses) : Bool :=
  p.channel_a.any badPulse || p.channel_b.any badPulse

/-- The control byte of the B0 frame (`device.py:723-726`): upper 4 bits the
sequence number when an ack is requested (strengths present) else 0, then the
2-bit channel-A mode, then the 2-bit channel-B mode.  The Python `<<`/`or` on
these disjoint bit ranges equals this arithmetic form. -/
def controlByte (seq : Nat) (hasStrengths : Bool) : Nat :=
  (if hasStrengths then seq else 0) * 16
    + (if hasStrengths then INTERP_ABSOLUTE_SET else INTERP_NO_CHANGE) * 4
    + (if hasStrengths then INTERP_ABSOLUTE_SET else INTERP_NO_CHANGE)

/-- The 4 header bytes of the B0 frame (`device.py:738-743`). -/
def headerBytes (s : CoyoteDevice) (strengths : Option CoyoteStrengths) : List Int :=
  [ (CMD_B0 : Int),
    (controlByte s.sequence_number strengths.isSome : Int),
    ((strengths.map CoyoteStrengths.channel_a).getD 0 : Int),
    ((strengths.map CoyoteStrengths.channel_b).getD 0 : Int) ]

/-- Pulse section of the frame (`device.py:746-752`): channel-A durations, then
channel-A intensities, then channel-B durations, then channel-B intensities when
a valid packet is present, else the fixed zero pad. -/
def pulseSection (validPulses : Option CoyotePulses) : List Int :=
  match validPulses with
  | some p =>
      p.channel_a.map CoyotePulse.duration ++ p.channel_a.map CoyotePulse.intensity
        ++ p.channel_b.map CoyotePulse.duration ++ p.channel_b.map CoyotePulse.intensity
  | none => List.replicate B0_NO_PULSES_PAD_BYTES 0

/-- The pulse-validation step of `send_command` (`device.py:729-735`): the
packet survives unchanged unless some intensity is out of [0,100], in which
case the whole packet is dropped (`valid_pulses = None`). -/
def validatePulses (pulses : Option CoyotePulses) : Option CoyotePulses :=
  match pulses with
  | some p => if invalidPulses p then none else some p
  | none => none

/-- Result of a `send_command` call: the post state, the boolean result, whether
the `pulse_sent` signal was emitted, and the frame written to the write
characteristic (`none` when no write was attempted). -/
structure SendResult where
  state : CoyoteDevice
  ok : Bool
  pulseSentEmitted : Bool
  written : Option (List Int)
deriving Repr

/-- `send_command` (`device.py:685-797`).  `writeOk` abstracts whether any of
the (up to 3) `write_gatt_char` attempts succeeds.  Order of the source:
emit `pulse_sent` first if pulses were passed; if no live connected client,
optimistically copy strengths into local state and return False; reject a call
with neither payload; build the control byte; drop the pulse packet if any
intensity is out of [0,100]; build and write the frame; on success increment
the sequence number mod 16. -/
def sendCommand (s : CoyoteDevice) (strengths : Option CoyoteStrengths)
    (pulses : Option CoyotePulses) (writeOk : Bool) : SendResult :=
  let emitted := pulses.isSome
  if s.client ≠ some true then
    match strengths with
    | some st =>
        { state := { s with strengths_a := st.channel_a, strengths_b := st.channel_b },
          ok := false, pulseSentEmitted := emitted, written := none }
    | none => { state := s, ok := false, pulseSentEmitted := emitted, written := none }
  else if strengths.isNone && pulses.isNone then
    { state := s, ok := false, pulseSentEmitted := emitted, written := none }
  else
    let command := headerBytes s strengths ++ pulseSection (validatePulses pulses)
    if writeOk then
      { state := { s with sequence_number := (s.sequence_number + 1) % SEQUENCE_MODULO },
        ok := true, pulseSentEmitted := emitted, written := some command }
    else
      { state := s, ok := false, pulseSentEmitted := emitted, written := some command }

/-- `_send_parameters` (`device.py:468-509`): writes the 7-byte 0xBF frame; it
never touches the sequence number or strengths.  Returns the post state, the
boolean result and the frame written (if any). -/
def sendParameters (s : CoyoteDevice) (writeOk : Bool) :
    CoyoteDevice × Bool × Option (List Nat) :=
  if s.client ≠ some true then (s, false, none)
  else
    let command := [0xBF,
      s.parameters.channel_a_limit, s.parameters.channel_b_limit,
      s.parameters.channel_a_freq_balance, s.parameters.channel_b_freq_balance,
      s.parameters.channel_a_intensity_balance, s.parameters.channel_b_intensity_balance]
    (s, writeOk, some command)

/-! ### Status notifications (`_handle_status_notification`, `device.py:415-466`) -/

/-- Observable outcome of one status notification delivery.  `indexError` marks
the handler raising `IndexError` out of the callback (reading `data[1]`,
`data[2]` or `data[3]` on a frame shorter than 4 bytes): the source assigns all
four of `data[0..3]` unconditionally before dispatching on the command id. -/
inductive NotifyResult
  | droppedEmpty
  | indexError
  | powerUpdate (a b : Nat)
  | ack
  | droppedMalformedActive
  | activePower (a b : Nat)
  | unknown
deriving DecidableEq, Repr

/-- `_handle_status_notification` (`device.py:415-466`).  The empty frame is
logged and dropped; a non-empty frame shorter than 4 bytes raises `IndexError`
at the unconditional `data[1..3]` reads (the in-branch `len(data) < 4` guard of
the ActivePower arm, kept here for fidelity, is dead code behind them); a
PowerUpdate copies the raw payload bytes into `strengths`; the first
ActivePower of a session is forced to (0,0) and sets the seen flag. -/
def handleStatusNotification (s : CoyoteDevice) (data : List Nat) :
    CoyoteDevice × NotifyResult :=
  if data.length = 0 then (s, NotifyResult.droppedEmpty)
  else if data.length < 4 then (s, NotifyResult.indexError)
  else if data.getD 0 0 = CMD_POWER_UPDATE then
    ({ s with strengths_a := data.getD 2 0, strengths_b := data.getD 3 0 },
      NotifyResult.powerUpdate (data.getD 2 0) (data.getD 3 0))
  else if data.getD 0 0 = CMD_ACK then (s, NotifyResult.ack)
  else if data.getD 0 0 = CMD_ACTIVE_POWER then
    if data.length < 4 then (s, NotifyResult.droppedMalformedActive)
    else if s.first_active_power_seen = false then
      ({ s with first_active_power_seen := true }, NotifyResult.activePower 0 0)
    else (s, NotifyResult.activePower (data.getD 2 0) (data.getD 3 0))
  else (s, NotifyResult.unknown)

/-! ### Teardown and recovery (`device.py:305-337, 799-837`) -/

/-- The all-zero pulse packet sent before teardown (`device.py:806-809`). -/
def zeroPulses : CoyotePulses where
  channel_a := List.replicate PULSES_PER_PACKET ⟨0, 0, 0⟩
  channel_b := List.replicate PULSES_PER_PACKET ⟨0, 0, 0⟩

/-- `_disconnect_client` (`device.py:799-823`): only when a client object is
present does it stop the update loop (`running := false`) and send the
zero-pulse packet; in every case the client field ends up `None`. -/
def disconnectClient (s : CoyoteDevice) (writeOk : Bool) : CoyoteDevice :=
  if s.client.isSome then
    let s1 := { s with running := false }
    let s2 := (sendCommand s1 none (some zeroPulses) writeOk).state
    { s2 with client := none }
  else
    { s with client := none }

/-- `_recover_from_transient_failure` (`device.py:310-337`).  `now` is the
`time.time()` value, `extraDelay` the consecutive-failure streak, `win` the
platform test, `scanOk` whether the Windows backoff scan ran without raising,
`writeOk` whether the teardown zero-pulse write succeeds.  The scan attempt
counter is cleared and the stage set to SCANNING; the first-active-power flag
is not touched; `next_scan_time` is set to a backoff deadline except on the
successful Windows active-scan path (which sleeps instead and returns). -/
def recoverFromTransientFailure (s : CoyoteDevice) (now : ℚ) (extraDelay : Nat)
    (win scanOk writeOk : Bool) : CoyoteDevice :=
  let s1 := disconnectClient s writeOk
  let s2 := { s1 with scan_attempt_counter := 0,
                      connection_stage := ConnectionStage.SCANNING }
  if win && decide (0 < extraDelay) then
    let backoff : ℚ := min 5 (1 + (extraDelay : ℚ))
    if scanOk then s2 else { s2 with next_scan_time := now + backoff }
  else
    { s2 with next_scan_time := now + 1 }

/-- The force-disconnect branch at the top of the connection loop
(`device.py:100-108`): clears the request flag, tears the link down, zeroes the
scan attempt counter and next-scan deadline, clears the first-active-power
flag, and returns to DISCONNECTED. -/
def forceDisconnectStep (s : CoyoteDevice) (writeOk : Bool) : CoyoteDevice :=
  if s.force_disconnect then
    let s1 := disconnectClient { s with force_disconnect := false } writeOk
    { s1 with scan_attempt_counter := 0, next_scan_time := 0,
              first_active_power_seen := false,
              connection_stage := ConnectionStage.DISCONNECTED }
  else s

/-- The unexpected-disconnect check of the loop (`device.py:110-117`): when the
stage is CONNECTED but the client is gone or no longer connected, tear down,
clear the first-active-power flag and return to DISCONNECTED. -/
def unexpectedDisconnectStep (s : CoyoteDevice) (writeOk : Bool) : CoyoteDevice :=
  if s.connection_stage = ConnectionStage.CONNECTED && s.client ≠ some true then
    let s1 := disconnectClient s writeOk
    { s1 with first_active_power_seen := false,
              connection_stage := ConnectionStage.DISCONNECTED }
  else s

/-- `start_updates` (`device.py:368-383`): sets the running flag (the algorithm
object itself is out of the model). -/
def startUpdates (s : CoyoteDevice) : CoyoteDevice :=
  { s with running := true }

/-- `stop_updates` (`device.py:385-389`). -/
def stopUpdates (s : CoyoteDevice) : CoyoteDevice :=
  { s with running := false }

/-! ### Scan/address caching (`device.py:160-214, 362-366, 568-591`) -/

/-- `_remember_device_address` (`device.py:362-366`): stores the address, zeroes
the cached-failure count and the skip counter, and writes the settings store
(`address or ""`); the ghost `settingsWrites` counts that store write. -/
def rememberDeviceAddress (s : CoyoteDevice) (address : Option String) : CoyoteDevice :=
  { s with last_device_address := address,
           cached_connect_failure_count := 0,
           skip_cached_reconnect_scans := 0,
           persisted_address := address.getD "",
           settingsWrites := s.settingsWrites + 1 }

/-- The cached-address phase at the head of `_scan_for_device`
(`device.py:568-591`): when a cached address exists and no skip credit is
pending, bind it directly (second component `true`) unless the Windows
deferral applies; when skip credit is pending, consume one credit and fall
through to the radio scans. -/
def scanCachedPhase (s : CoyoteDevice) (win : Bool) : CoyoteDevice × Bool :=
  if s.last_device_address.isSome && decide (s.skip_cached_reconnect_scans = 0) then
    if win && decide (s.scan_failure_streak < 2) then (s, false)
    else ({ s with using_cached_address := true, client := some false }, true)
  else if s.last_device_address.isSome && decide (0 < s.skip_cached_reconnect_scans) then
    ({ s with skip_cached_reconnect_scans := s.skip_cached_reconnect_scans - 1 }, false)
  else (s, false)

/-- The CONNECTING success arm (`device.py:154-159`): reset the failure
counters, drop the cached-address mark, advance to SERVICE_DISCOVERY. -/
def onConnectSuccess (s : CoyoteDevice) : CoyoteDevice :=
  { s with cached_connect_failure_count := 0,
           connect_failure_streak := 0,
           using_cached_address := false,
           connection_stage := ConnectionStage.SERVICE_DISCOVERY }

/-- The in-place bookkeeping of the CONNECTING failure arms
(`device.py:160-214`, identical for timeout and error), before the recovery
call: bump the failure streak; if the attempt used the cached address, bump
the cached-failure count, set at least 2 skip-scan credits, and on reaching
the limit (3) clear the persisted address via `_remember_device_address(None)`;
in either case drop the cached mark; on Windows a streak of 2 forces the
scanner refresh. -/
def cachedFailureUpdate (s : CoyoteDevice) : CoyoteDevice :=
  if s.using_cached_address && s.last_device_address.isSome then
    { (if 3 ≤ s.cached_connect_failure_count + 1 then
        rememberDeviceAddress { s with
          cached_connect_failure_count := s.cached_connect_failure_count + 1,
          skip_cached_reconnect_scans := max s.skip_cached_reconnect_scans 2 } none
      else
        { s with
          cached_connect_failure_count := s.cached_connect_failure_count + 1,
          skip_cached_reconnect_scans := max s.skip_cached_reconnect_scans 2 })
      with using_cached_address := false }
  else s

def connectFailureBookkeeping (s : CoyoteDevice) (win : Bool) : CoyoteDevice :=
  if win ∧ 2 ≤ (cachedFailureUpdate
      { s with connect_failure_streak := s.connect_failure_streak + 1 }).connect_failure_streak then
    { cachedFailureUpdate { s with connect_failure_streak := s.connect_failure_streak + 1 } with
      scan_failure_streak := max (cachedFailureUpdate
        { s with connect_failure_streak := s.connect_failure_streak + 1 }).scan_failure_streak 2 }
  else cachedFailureUpdate { s with connect_failure_streak := s.connect_failure_streak + 1 }

/-- The CONNECTING failure arms (`device.py:160-214`): the bookkeeping above
followed by transient recovery with the new streak as the extra delay. -/
def onConnectFailure (s : CoyoteDevice) (now : ℚ) (win scanOk writeOk : Bool) : CoyoteDevice :=
  recoverFromTransientFailure (connectFailureBookkeeping s win) now
    (connectFailureBookkeeping s win).connect_failure_streak win scanOk writeOk

/-! ### Pulse generation (`pulse_generator.py:85-141`)

Python float arithmetic is modelled over `ℚ`; every quantity in the claims is
far from a rounding tie, so the rational and double computations agree. -/

/-- Python's built-in `round` on a number with integral ties broken to even. -/
def pythonRound (q : ℚ) : ℤ :=
  if q - (⌊q⌋ : ℚ) < 1 / 2 then ⌊q⌋
  else if (1 : ℚ) / 2 < q - (⌊q⌋ : ℚ) then ⌊q⌋ + 1
  else if ⌊q⌋ % 2 = 0 then ⌊q⌋ else ⌊q⌋ + 1

/-- Python's `int()` on a float: truncation toward zero. -/
def pythonInt (q : ℚ) : ℤ :=
  if 0 ≤ q then ⌊q⌋ else -⌊-q⌋

/-- Modelled from the spec: `clamp` from `device/coyote/common.py` (not under
`src/`); the spec uses it as `clamp(raw, min_hz, max_hz)`, the usual
lower/upper clamp. -/
def clamp (v lo hi : ℚ) : ℚ := max lo (min hi v)

/-- Modelled from the spec: `MIN_PULSE_DURATION_MS` from `constants.py` (not
under `src/`).  The spec gives the hardware envelope as ~4-240 ms; the source
comment at `pulse_generator.py:114` fixes it to "5-240ms = 4.17-200 Hz". -/
def MIN_PULSE_DURATION_MS : ℚ := 5

/-- Modelled from the spec: `MAX_PULSE_DURATION_MS` (see
`MIN_PULSE_DURATION_MS`); 240 ms. -/
def MAX_PULSE_DURATION_MS : ℚ := 240

/-- `PulseGenerator.create_pulse` (`pulse_generator.py:85-141`) with the axis
reads abstracted into arguments: `usingFunscript` selects the normalized
(0-100) mapping into the user window, otherwise the raw value is a frequency
clamped to the window; the target frequency is floored at 1 Hz, inverted into
a duration clamped to the hardware envelope, and the display frequency is
re-derived from the clamped duration.  The returned duration uses `int()`
(truncation), the display frequency uses `round`. -/
def createPulse (usingFunscript : Bool) (raw userMin userMax : ℚ)
    (intensity : ℤ) : CoyotePulse :=
  let requested : ℚ :=
    if usingFunscript then userMin + raw / 100 * (userMax - userMin)
    else clamp raw userMin userMax
  let requested2 : ℚ := max 1 requested
  let baseDuration : ℚ :=
    clamp (1000 / requested2) MIN_PULSE_DURATION_MS MAX_PULSE_DURATION_MS
  let displayFrequency : ℤ := max 1 (pythonRound (1000 / baseDuration))
  let finalIntensity : ℤ := max 0 (min 100 intensity)
  { frequency := displayFrequency, intensity := finalIntensity,
    duration := pythonInt baseDuration }

/-! ### Helper lemmas: which state fields each operation can touch -/

theorem sendCommand_state_running (s : CoyoteDevice) (str : Option CoyoteStrengths)
    (pul : Option CoyotePulses) (w : Bool) :
    (sendCommand s str pul w).state.running = s.running := by
  unfold sendCommand; cases str <;> cases pul <;> split_ifs <;> rfl

theorem sendCommand_state_client (s : CoyoteDevice) (str : Option CoyoteStrengths)
    (pul : Option CoyotePulses) (w : Bool) :
    (sendCommand s str pul w).state.client = s.client := by
  unfold sendCommand; cases str <;> cases pul <;> split_ifs <;> rfl

theorem sendCommand_state_first_active (s : CoyoteDevice) (str : Option CoyoteStrengths)
    (pul : Option CoyotePulses) (w : Bool) :
    (sendCommand s str pul w).state.first_active_power_seen = s.first_active_power_seen := by
  unfold sendCommand; cases str <;> cases pul <;> split_ifs <;> rfl

theorem sendCommand_state_stage (s : CoyoteDevice) (str : Option CoyoteStrengths)
    (pul : Option CoyotePulses) (w : Bool) :
    (sendCommand s str pul w).state.connection_stage = s.connection_stage := by
  unfold sendCommand; cases str <;> cases pul <;> split_ifs <;> rfl

theorem sendCommand_state_scan_attempts (s : CoyoteDevice) (str : Option CoyoteStrengths)
    (pul : Option CoyotePulses) (w : Bool) :
    (sendCommand s str pul w).state.scan_attempt_counter = s.scan_attempt_counter := by
  unfold sendCommand; cases str <;> cases pul <;> split_ifs <;> rfl

theorem sendCommand_state_next_scan (s : CoyoteDevice) (str : Option CoyoteStrengths)
    (pul : Option CoyotePulses) (w : Bool) :
    (sendCommand s str pul w).state.next_scan_time = s.next_scan_time := by
  unfold sendCommand; cases str <;> cases pul <;> split_ifs <;> rfl

theorem sendCommand_state_address (s : CoyoteDevice) (str : Option CoyoteStrengths)
    (pul : Option CoyotePulses) (w : Bool) :
    (sendCommand s str pul w).state.last_device_address = s.last_device_address := by
  unfold sendCommand; cases str <;> cases pul <;> split_ifs <;> rfl

theorem sendCommand_state_persisted (s : CoyoteDevice) (str : Option CoyoteStrengths)
    (pul : Option CoyotePulses) (w : Bool) :
    (sendCommand s str pul w).state.persisted_address = s.persisted_address := by
  unfold sendCommand; cases str <;> cases pul <;> split_ifs <;> rfl

theorem sendCommand_state_writes (s : CoyoteDevice) (str : Option CoyoteStrengths)
    (pul : Option CoyotePulses) (w : Bool) :
    (sendCommand s str pul w).state.settingsWrites = s.settingsWrites := by
  unfold sendCommand; cases str <;> cases pul <;> split_ifs <;> rfl

theorem sendCommand_state_cached_count (s : CoyoteDevice) (str : Option CoyoteStrengths)
    (pul : Option CoyotePulses) (w : Bool) :
    (sendCommand s str pul w).state.cached_connect_failure_count
      = s.cached_connect_failure_count := by
  unfold sendCommand; cases str <;> cases pul <;> split_ifs <;> rfl

theorem disconnectClient_running (s : CoyoteDevice) (w : Bool) (h : s.client.isSome) :
    (disconnectClient s w).running = false := by
  unfold disconnectClient
  rw [if_pos h]
  simp [sendCommand_state_running]

theorem disconnectClient_running_mono (s : CoyoteDevice) (w : Bool) :
    (disconnectClient s w).running = true → s.running = true := by
  unfold disconnectClient
  split_ifs with h
  · simp [sendCommand_state_running]
  · exact fun h2 => h2

theorem disconnectClient_first_active (s : CoyoteDevice) (w : Bool) :
    (disconnectClient s w).first_active_power_seen = s.first_active_power_seen := by
  unfold disconnectClient
  split_ifs with h <;> simp [sendCommand_state_first_active]

theorem disconnectClient_stage (s : CoyoteDevice) (w : Bool) :
    (disconnectClient s w).connection_stage = s.connection_stage := by
  unfold disconnectClient
  split_ifs with h <;> simp [sendCommand_state_stage]

theorem disconnectClient_address (s : CoyoteDevice) (w : Bool) :
    (disconnectClient s w).last_device_address = s.last_device_address := by
  unfold disconnectClient
  split_ifs with h <;> simp [sendCommand_state_address]

theorem disconnectClient_persisted (s : CoyoteDevice) (w : Bool) :
    (disconnectClient s w).persisted_address = s.persisted_address := by
  unfold disconnectClient
  split_ifs with h <;> simp [sendCommand_state_persisted]

theorem disconnectClient_writes (s : CoyoteDevice) (w : Bool) :
    (disconnectClient s w).settingsWrites = s.settingsWrites := by
  unfold disconnectClient
  split_ifs with h <;> simp [sendCommand_state_writes]

theorem disconnectClient_cached_count (s : CoyoteDevice) (w : Bool) :
    (disconnectClient s w).cached_connect_failure_count = s.cached_connect_failure_count := by
  unfold disconnectClient
  split_ifs with h <;> simp [sendCommand_state_cached_count]

theorem recover_fields (s : CoyoteDevice) (now : ℚ) (extraDelay : Nat)
    (win scanOk writeOk : Bool) :
    (recoverFromTransientFailure s now extraDelay win scanOk writeOk).connection_stage
        = ConnectionStage.SCANNING ∧
    (recoverFromTransientFailure s now extraDelay win scanOk writeOk).scan_attempt_counter = 0 ∧
    (recoverFromTransientFailure s now extraDelay win scanOk writeOk).first_active_power_seen
        = s.first_active_power_seen ∧
    (recoverFromTransientFailure s now extraDelay win scanOk writeOk).last_device_address
        = s.last_device_address ∧
    (recoverFromTransientFailure s now extraDelay win scanOk writeOk).persisted_address
        = s.persisted_address ∧
    (recoverFromTransientFailure s now extraDelay win scanOk writeOk).settingsWrites
        = s.settingsWrites ∧
    (recoverFromTransientFailure s now extraDelay win scanOk writeOk).cached_connect_failure_count
        = s.cached_connect_failure_count := by
  unfold recoverFromTransientFailure
  split_ifs <;>
    simp [disconnectClient_first_active, disconnectClient_address, disconnectClient_persisted,
      disconnectClient_writes, disconnectClient_cached_count]

theorem recover_running_of_some (s : CoyoteDevice) (now : ℚ) (extraDelay : Nat)
    (win scanOk writeOk : Bool) (h : s.client.isSome) :
    (recoverFromTransientFailure s now extraDelay win scanOk writeOk).running = false := by
  unfold recoverFromTransientFailure
  split_ifs <;> simp [disconnectClient_running s writeOk h]

theorem recover_running_mono (s : CoyoteDevice) (now : ℚ) (extraDelay : Nat)
    (win scanOk writeOk : Bool) :
    (recoverFromTransientFailure s now extraDelay win scanOk writeOk).running = true →
    s.running = true := by
  unfold recoverFromTransientFailure
  split_ifs <;> exact fun h2 => disconnectClient_running_mono s writeOk h2

theorem recover_address_eq (s : CoyoteDevice) (now : ℚ) (e : Nat) (win sc w : Bool) :
    (recoverFromTransientFailure s now e win sc w).last_device_address
      = s.last_device_address :=
  (recover_fields s now e win sc w).2.2.2.1

theorem recover_persisted_eq (s : CoyoteDevice) (now : ℚ) (e : Nat) (win sc w : Bool) :
    (recoverFromTransientFailure s now e win sc w).persisted_address
      = s.persisted_address :=
  (recover_fields s now e win sc w).2.2.2.2.1

theorem recover_writes_eq (s : CoyoteDevice) (now : ℚ) (e : Nat) (win sc w : Bool) :
    (recoverFromTransientFailure s now e win sc w).settingsWrites = s.settingsWrites :=
  (recover_fields s now e win sc w).2.2.2.2.2.1

theorem recover_cached_count_eq (s : CoyoteDevice) (now : ℚ) (e : Nat) (win sc w : Bool) :
    (recoverFromTransientFailure s now e win sc w).cached_connect_failure_count
      = s.cached_connect_failure_count :=
  (recover_fields s now e win sc w).2.2.2.2.2.2

theorem cachedFailureUpdate_below (s : CoyoteDevice)
    (hu : s.using_cached_address = true) (ha : s.last_device_address.isSome)
    (hc : s.cached_connect_failure_count + 1 < 3) :
    (cachedFailureUpdate s).cached_connect_failure_count
        = s.cached_connect_failure_count + 1 ∧
    (cachedFailureUpdate s).last_device_address = s.last_device_address ∧
    (cachedFailureUpdate s).persisted_address = s.persisted_address ∧
    (cachedFailureUpdate s).settingsWrites = s.settingsWrites ∧
    (cachedFailureUpdate s).skip_cached_reconnect_scans
        = max s.skip_cached_reconnect_scans 2 ∧
    (cachedFailureUpdate s).using_cached_address = false := by
  unfold cachedFailureUpdate
  rw [if_pos (by simp [hu, ha]), if_neg (by omega)]
  exact ⟨rfl, rfl, rfl, rfl, rfl, rfl⟩

theorem cachedFailureUpdate_threshold (s : CoyoteDevice)
    (hu : s.using_cached_address = true) (ha : s.last_device_address.isSome)
    (hc : s.cached_connect_failure_count = 2) :
    (cachedFailureUpdate s).last_device_address = none ∧
    (cachedFailureUpdate s).persisted_address = "" ∧
    (cachedFailureUpdate s).cached_connect_failure_count = 0 ∧
    (cachedFailureUpdate s).settingsWrites = s.settingsWrites + 1 ∧
    (cachedFailureUpdate s).skip_cached_reconnect_scans = 0 ∧
    (cachedFailureUpdate s).using_cached_address = false := by
  unfold cachedFailureUpdate
  rw [if_pos (by simp [hu, ha]), if_pos (by omega)]
  exact ⟨rfl, rfl, rfl, rfl, rfl, rfl⟩

theorem cachedFailureUpdate_noaddr (s : CoyoteDevice)
    (ha : s.last_device_address = none) : cachedFailureUpdate s = s := by
  unfold cachedFailureUpdate
  rw [if_neg (by simp [ha])]

theorem bookkeeping_proj (s : CoyoteDevice) (win : Bool) :
    (connectFailureBookkeeping s win).cached_connect_failure_count
      = (cachedFailureUpdate
          { s with connect_failure_streak := s.connect_failure_streak + 1 }).cached_connect_failure_count ∧
    (connectFailureBookkeeping s win).last_device_address
      = (cachedFailureUpdate
          { s with connect_failure_streak := s.connect_failure_streak + 1 }).last_device_address ∧
    (connectFailureBookkeeping s win).persisted_address
      = (cachedFailureUpdate
          { s with connect_failure_streak := s.connect_failure_streak + 1 }).persisted_address ∧
    (connectFailureBookkeeping s win).settingsWrites
      = (cachedFailureUpdate
          { s with connect_failure_streak := s.connect_failure_streak + 1 }).settingsWrites := by
  unfold connectFailureBookkeeping
  split_ifs <;> exact ⟨rfl, rfl, rfl, rfl⟩

theorem bookkeeping_client (s : CoyoteDevice) (win : Bool) :
    (connectFailureBookkeeping s win).client = s.client := by
  unfold connectFailureBookkeeping cachedFailureUpdate
  split_ifs <;> rfl

theorem bookkeeping_running (s : CoyoteDevice) (win : Bool) :
    (connectFailureBookkeeping s win).running = s.running := by
  unfold connectFailureBookkeeping cachedFailureUpdate
  split_ifs <;> rfl

/-! ### Demonstration states for witnesses and counterexamples -/

/-- A parameter snapshot used by the concrete witness states. -/
def demoParams : CoyoteParams := ⟨100, 100, 128, 128, 128, 128⟩

/-- The freshly initialised device (no persisted address). -/
def demoDevice : CoyoteDevice := initDevice demoParams none

/-- The fresh device with a live connected client. -/
def demoConnected : CoyoteDevice := { demoDevice with client := some true }

/-! ### Claim C1 -/

/-- Claim C1: a non-empty status notification shorter than 4 bytes is claimed to
be logged and dropped without raising.  In the source the handler reads
`data[1]`, `data[2]` and `data[3]` unconditionally before dispatching on the
command id (the `len(data) < 4` guard inside the ActivePower arm sits after
those reads and is dead), so a 1-byte and a 3-byte notification raise
`IndexError` out of the handler instead of being dropped; the device state is
left unchanged only because the raise happens before any assignment. -/
theorem C1_short_notification_raises :
    handleStatusNotification demoDevice [CMD_ACTIVE_POWER]
      = (demoDevice, NotifyResult.indexError) ∧
    handleStatusNotification demoDevice [CMD_POWER_UPDATE, 0, 5]
      = (demoDevice, NotifyResult.indexError) ∧
    handleStatusNotification demoDevice [] = (demoDevice, NotifyResult.droppedEmpty) := by
  refine ⟨rfl, rfl, rfl⟩

/-! ### Claim C2 -/

/-- Claim C2 counterexample: the claim says the sequence number is unchanged by
a successfully written pulses-only command, but the source increments it after
every successful `write_gatt_char` in `send_command` (`device.py:787`),
whether or not strengths were carried.  A successful pulses-only send from the
fresh connected device (sequence number 1) returns True and leaves the counter
at 2. -/
theorem C2_counterexample :
    (sendCommand demoConnected none (some zeroPulses) true).ok = true ∧
    demoConnected.sequence_number = 1 ∧
    (sendCommand demoConnected none (some zeroPulses) true).state.sequence_number = 2 := by
  refine ⟨rfl, rfl, rfl⟩

/-- Claim C2 (amended): the sequence number stays in [0,15] and increments mod
16 exactly on a successfully written `send_command` frame (with strengths
and/or pulses, over a live connection); it is unchanged by failed writes, by
sends attempted while disconnected, and by the unacknowledged 0xBF parameter
frame of `_send_parameters`. -/
theorem C2_sequence_number_evolution (s : CoyoteDevice) (str : Option CoyoteStrengths)
    (pul : Option CoyotePulses) (w : Bool) (hseq : s.sequence_number < 16) :
    (sendCommand s str pul w).state.sequence_number < 16 ∧
    (sendCommand s str pul w).state.sequence_number =
      (if s.client = some true ∧ (str.isSome ∨ pul.isSome) ∧ w = true
        then (s.sequence_number + 1) % 16 else s.sequence_number) ∧
    (∀ w2, (sendParameters s w2).1.sequence_number = s.sequence_number) := by
  refine ⟨?_, ?_, ?_⟩
  · unfold sendCommand
    cases str <;> cases pul <;> split_ifs <;>
      first
        | exact hseq
        | exact Nat.mod_lt _ (by decide)
  · unfold sendCommand SEQUENCE_MODULO
    cases str <;> cases pul <;> split_ifs <;> simp_all
  · intro w2
    unfold sendParameters
    split_ifs <;> rfl

/-- Claim C2 witness: the amended theorem applied to the fresh connected
device: a successful strengths write advances 1 to 2; the counter stays below
16. -/
theorem C2_witness :
    demoConnected.sequence_number < 16 ∧
    (sendCommand demoConnected (some ⟨10, 20⟩) none true).state.sequence_number < 16 := by
  exact ⟨by decide,
    (C2_sequence_number_evolution demoConnected (some ⟨10, 20⟩) none true (by decide)).1⟩

/-! ### Claim C5 -/

theorem createPulse_demo_eval :
    createPulse true 50 10 100 0 = { frequency := 55, intensity := 0, duration := 18 } := by
  have hb : clamp (1000 / max 1 ((10 : ℚ) + 50 / 100 * (100 - 10)))
      MIN_PULSE_DURATION_MS MAX_PULSE_DURATION_MS = 200 / 11 := by
    rw [clamp, MIN_PULSE_DURATION_MS, MAX_PULSE_DURATION_MS, max_def, max_def, min_def]
    norm_num
  simp only [createPulse, if_true]
  rw [hb]
  have h55 : (1000 : ℚ) / (200 / 11) = 55 := by norm_num
  rw [h55]
  have hr : pythonRound (55 : ℚ) = 55 := by
    rw [pythonRound]
    norm_num
  have hi : pythonInt (200 / 11 : ℚ) = 18 := by
    rw [pythonInt]
    norm_num
  rw [hr, hi]
  norm_num

theorem pythonRound_demo_eval : pythonRound (200 / 11 : ℚ) = 18 := by
  rw [pythonRound]
  norm_num

/-- Claim C5 counterexample: with min 10 Hz, max 100 Hz and normalized control
value 50, `create_pulse` maps to 55 Hz, base duration 1000/55 = 200/11 ms
(within the 5-240 ms envelope), display frequency round(55) = 55 — not the 56
the claim states.  (56 would arise only if the display frequency were
re-derived from the already-truncated 18 ms duration, which the source does
not do: `pulse_generator.py:119` divides by the unrounded `base_duration`.) -/
theorem C5_counterexample :
    ¬ ((createPulse true 50 10 100 0).duration = 18 ∧
       (createPulse true 50 10 100 0).frequency = 56) := by
  intro h
  have h2 := h.2
  rw [createPulse_demo_eval] at h2
  exact absurd h2 (by decide)

/-- Claim C5 (amended): with minimum frequency 10 Hz, maximum frequency 100 Hz
and a normalized control value of 50, `create_pulse` produces duration 18 ms
and display frequency 55 Hz (the duration is `int(base_duration_ms)`,
truncation, which at the base duration 200/11 ms agrees with rounding). -/
theorem C5_pulse_scenario :
    createPulse true 50 10 100 0
      = { frequency := 55, intensity := 0, duration := 18 } ∧
    pythonInt (200 / 11 : ℚ) = pythonRound (200 / 11 : ℚ) := by
  constructor
  · exact createPulse_demo_eval
  · rw [pythonRound_demo_eval, pythonInt]
    norm_num

/-! ### Claim C10 -/

/-- Claim C10: whenever `send_command` is called with a pulses packet, the
`pulse_sent` notification is emitted unconditionally — the emission at
`device.py:696-697` precedes the connectivity check, the payload check and the
intensity validation, so it happens even when the device is disconnected, the
pulses are invalid and discarded, or the write fails; and it is never emitted
for a call without pulses. -/
theorem C10_pulse_sent_unconditional (s : CoyoteDevice) (str : Option CoyoteStrengths)
    (p : CoyotePulses) (w : Bool) :
    (sendCommand s str (some p) w).pulseSentEmitted = true ∧
    (sendCommand s str none w).pulseSentEmitted = false := by
  constructor <;>
    · unfold sendCommand
      cases str <;> split_ifs <;> rfl

/-! ### Claim C3 -/

/-- The fresh connected device whose sequence counter has wrapped to 0 (it
starts at 1 and advances mod 16 on every successful write, so 0 is reached
after 15 successful writes). -/
def demoSeqZero : CoyoteDevice := { demoConnected with sequence_number := 0 }

/-- Claim C3 counterexample: the claim says the control byte's upper nibble is
nonzero whenever strengths are present, but the counter wraps to 0 (mod 16),
and a strengths-present send in that state writes control byte
`0*16 + 3*4 + 3 = 15`, whose upper nibble is 0. -/
theorem C3_counterexample :
    (sendCommand demoSeqZero (some ⟨7, 9⟩) none true).written
      = some (176 :: 15 :: 7 :: 9 :: List.replicate 16 0) ∧
    ¬ 0 < (15 : Nat) / 16 := by
  exact ⟨rfl, by decide⟩

/-- Claim C3 (amended): on every `send_command` over a live connection, the
control byte's upper nibble equals the current sequence number when strengths
are present (nonzero except in the wrap state 0) and is 0 for a pulses-only
send regardless of the counter; its next 2 bits are the channel-A mode and its
lowest 2 bits the channel-B mode, both ABSOLUTE_SET exactly when strengths are
present and NO_CHANGE otherwise. -/
theorem C3_control_byte (s : CoyoteDevice) (str : Option CoyoteStrengths)
    (pul : Option CoyotePulses) (w : Bool) (hseq : s.sequence_number < 16)
    (hc : s.client = some true) (hpay : str.isSome ∨ pul.isSome) :
    ∃ cmd, (sendCommand s str pul w).written = some cmd ∧
      cmd.getD 1 0 = (controlByte s.sequence_number str.isSome : Int) ∧
      controlByte s.sequence_number str.isSome / 16
        = (if str.isSome then s.sequence_number else 0) ∧
      controlByte s.sequence_number str.isSome / 4 % 4
        = (if str.isSome then INTERP_ABSOLUTE_SET else INTERP_NO_CHANGE) ∧
      controlByte s.sequence_number str.isSome % 4
        = (if str.isSome then INTERP_ABSOLUTE_SET else INTERP_NO_CHANGE) ∧
      (str.isSome = true → s.sequence_number ≠ 0 →
        0 < controlByte s.sequence_number str.isSome / 16) := by
  have hw : (sendCommand s str pul w).written
      = some (headerBytes s str ++ pulseSection (validatePulses pul)) := by
    unfold sendCommand
    rw [if_neg (by simp [hc])]
    have hpd : (str.isNone && pul.isNone) = false := by
      rcases hpay with h | h <;> cases str <;> cases pul <;> simp_all
    rw [if_neg (by simp [hpd])]
    split_ifs <;> rfl
  refine ⟨_, hw, ?_, ?_, ?_, ?_, ?_⟩
  · cases str <;> rfl
  · unfold controlByte INTERP_ABSOLUTE_SET INTERP_NO_CHANGE
    cases str <;> simp <;> omega
  · unfold controlByte INTERP_ABSOLUTE_SET INTERP_NO_CHANGE
    cases str <;> simp <;> omega
  · unfold controlByte INTERP_ABSOLUTE_SET INTERP_NO_CHANGE
    cases str <;> simp <;> omega
  · intro hs hnz
    unfold controlByte INTERP_ABSOLUTE_SET INTERP_NO_CHANGE
    rw [hs]
    simp only [if_true]
    omega

/-- Claim C3 witness: the amended theorem at the fresh connected device
(sequence number 1, strengths present): the frame's control byte has upper
nibble 1 and both mode fields ABSOLUTE_SET. -/
theorem C3_witness :
    demoConnected.sequence_number < 16 ∧ demoConnected.client = some true ∧
    ∃ cmd, (sendCommand demoConnected (some ⟨7, 9⟩) none true).written = some cmd ∧
      cmd.getD 1 0 = (controlByte demoConnected.sequence_number true : Int) ∧
      controlByte demoConnected.sequence_number true / 16 = demoConnected.sequence_number ∧
      0 < controlByte demoConnected.sequence_number true / 16 := by
  obtain ⟨cmd, h1, h2, h3, -, -, h6⟩ :=
    C3_control_byte demoConnected (some ⟨7, 9⟩) none true (by decide) (by decide) (Or.inl rfl)
  refine ⟨by decide, by decide, cmd, h1, h2, ?_, h6 rfl (by decide)⟩
  simpa using h3

/-! ### Claim C4 -/

/-- Claim C4: over a live connection, a pulses packet containing any intensity
outside [0,100] causes the whole pulse section to be replaced by the
`B0_NO_PULSES_PAD_BYTES` zero pad (the header, with its strengths bytes, is
untouched, and the strengths state never changes on the connected path); a
valid packet is laid out as channel-A durations, channel-A intensities,
channel-B durations, channel-B intensities; with the fixed packet size the
valid pulse section and the pad have equal length. -/
theorem C4_invalid_pulses_zero_pad (s : CoyoteDevice) (str : Option CoyoteStrengths)
    (p : CoyotePulses) (w : Bool) (hc : s.client = some true)
    (ha : p.channel_a.length = PULSES_PER_PACKET)
    (hb : p.channel_b.length = PULSES_PER_PACKET) :
    ((sendCommand s str (some p) w).state.strengths_a = s.strengths_a ∧
     (sendCommand s str (some p) w).state.strengths_b = s.strengths_b) ∧
    (invalidPulses p = true →
      (sendCommand s str (some p) w).written
        = some (headerBytes s str ++ List.replicate B0_NO_PULSES_PAD_BYTES 0)) ∧
    (invalidPulses p = false →
      (sendCommand s str (some p) w).written
        = some (headerBytes s str ++
            (p.channel_a.map CoyotePulse.duration ++ p.channel_a.map CoyotePulse.intensity
              ++ p.channel_b.map CoyotePulse.duration ++ p.channel_b.map CoyotePulse.intensity))) ∧
    (pulseSection (some p)).length = B0_NO_PULSES_PAD_BYTES := by
  refine ⟨?_, ?_, ?_, ?_⟩
  · unfold sendCommand
    rw [if_neg (by simp [hc])]
    cases str <;> split_ifs <;> simp_all
  · intro hbad
    unfold sendCommand
    rw [if_neg (by simp [hc])]
    cases str <;> simp [hbad, validatePulses, pulseSection] <;> split_ifs <;> rfl
  · intro hgood
    unfold sendCommand
    rw [if_neg (by simp [hc])]
    cases str <;> simp [hgood, validatePulses, pulseSection] <;> split_ifs <;> rfl
  · simp [pulseSection, ha, hb, B0_NO_PULSES_PAD_BYTES, PULSES_PER_PACKET]

/-- A 4-pulse packet whose third channel-A pulse has intensity 101. -/
def demoBadPulses : CoyotePulses where
  channel_a := [⟨10, 50, 100⟩, ⟨10, 50, 100⟩, ⟨10, 101, 100⟩, ⟨10, 50, 100⟩]
  channel_b := List.replicate PULSES_PER_PACKET ⟨10, 50, 100⟩

/-- Claim C4 witness: the theorem applied to the connected device and
`demoBadPulses`: the frame is the header followed by the 16-byte zero pad and
the local strengths are untouched. -/
theorem C4_witness :
    demoConnected.client = some true ∧
    demoBadPulses.channel_a.length = PULSES_PER_PACKET ∧
    demoBadPulses.channel_b.length = PULSES_PER_PACKET ∧
    invalidPulses demoBadPulses = true ∧
    (sendCommand demoConnected (some ⟨3, 4⟩) (some demoBadPulses) true).written
      = some (headerBytes demoConnected (some ⟨3, 4⟩)
          ++ List.replicate B0_NO_PULSES_PAD_BYTES 0) ∧
    (sendCommand demoConnected (some ⟨3, 4⟩) (some demoBadPulses) true).state.strengths_a
      = demoConnected.strengths_a := by
  obtain ⟨hstr, hpad, -, -⟩ :=
    C4_invalid_pulses_zero_pad demoConnected (some ⟨3, 4⟩) demoBadPulses true
      (by decide) (by decide) (by decide)
  exact ⟨by decide, by decide, by decide, by decide, hpad (by decide), hstr.1⟩

/-! ### Claim C6 -/

/-- A device mid-CONNECTING that has already seen an active-power
notification. -/
def demoRecoverable : CoyoteDevice :=
  { demoDevice with connection_stage := ConnectionStage.CONNECTING,
                    first_active_power_seen := true, client := some true }

/-- Claim C6 counterexample: the claim says every transition back to SCANNING
clears the first-active-power-seen flag and the retry delay, but
`_recover_from_transient_failure` — the path taken by every transient
connect/discovery/subscribe/sync failure — returns to SCANNING leaving the
flag set and scheduling a nonzero retry deadline (`now + 1` here). -/
theorem C6_counterexample :
    (recoverFromTransientFailure demoRecoverable 0 0 false false true).connection_stage
      = ConnectionStage.SCANNING ∧
    (recoverFromTransientFailure demoRecoverable 0 0 false false true).first_active_power_seen
      = true ∧
    (recoverFromTransientFailure demoRecoverable 0 0 false false true).next_scan_time = 1 := by
  refine ⟨rfl, rfl, by norm_num [recoverFromTransientFailure, disconnectClient, sendCommand,
    demoRecoverable, demoDevice, initDevice]⟩

/-- Claim C6 (amended): transient-failure recovery returns to SCANNING and
clears the scan retry counter, but leaves the first-active-power-seen flag
untouched and schedules a backoff deadline instead of clearing it; the flag
(and, on the force path, the deadline) is cleared only by the two
loop transitions that pass through DISCONNECTED — the force-disconnect branch
and the unexpected-drop branch. -/
theorem C6_scanning_transitions (s : CoyoteDevice) (now : ℚ) (extraDelay : Nat)
    (win scanOk writeOk : Bool) :
    ((recoverFromTransientFailure s now extraDelay win scanOk writeOk).connection_stage
        = ConnectionStage.SCANNING ∧
     (recoverFromTransientFailure s now extraDelay win scanOk writeOk).scan_attempt_counter
        = 0 ∧
     (recoverFromTransientFailure s now extraDelay win scanOk writeOk).first_active_power_seen
        = s.first_active_power_seen) ∧
    (s.force_disconnect = true →
      (forceDisconnectStep s writeOk).first_active_power_seen = false ∧
      (forceDisconnectStep s writeOk).next_scan_time = 0 ∧
      (forceDisconnectStep s writeOk).scan_attempt_counter = 0 ∧
      (forceDisconnectStep s writeOk).connection_stage = ConnectionStage.DISCONNECTED) ∧
    (s.connection_stage = ConnectionStage.CONNECTED → s.client ≠ some true →
      (unexpectedDisconnectStep s writeOk).first_active_power_seen = false ∧
      (unexpectedDisconnectStep s writeOk).connection_stage
        = ConnectionStage.DISCONNECTED) := by
  refine ⟨?_, ?_, ?_⟩
  · obtain ⟨h1, h2, h3, -⟩ := recover_fields s now extraDelay win scanOk writeOk
    exact ⟨h1, h2, h3⟩
  · intro hf
    unfold forceDisconnectStep
    rw [if_pos hf]
    exact ⟨rfl, rfl, rfl, rfl⟩
  · intro hs hcl
    unfold unexpectedDisconnectStep
    rw [if_pos (by simp [hs, hcl])]
    exact ⟨rfl, rfl⟩

/-- Claim C6 witness: the amended theorem at `demoRecoverable`: recovery keeps
the set flag, and a forced disconnect from the same state clears it. -/
theorem C6_witness :
    ((recoverFromTransientFailure demoRecoverable 2 1 false false true).connection_stage
        = ConnectionStage.SCANNING ∧
     (recoverFromTransientFailure demoRecoverable 2 1 false false true).scan_attempt_counter
        = 0 ∧
     (recoverFromTransientFailure demoRecoverable 2 1 false false true).first_active_power_seen
        = demoRecoverable.first_active_power_seen) ∧
    { demoRecoverable with force_disconnect := true }.force_disconnect = true ∧
    (forceDisconnectStep { demoRecoverable with force_disconnect := true } true).first_active_power_seen
      = false := by
  obtain ⟨h1, -, -⟩ := C6_scanning_transitions demoRecoverable 2 1 false false true
  obtain ⟨-, h2, -⟩ :=
    C6_scanning_transitions { demoRecoverable with force_disconnect := true } 2 1 false false true
  exact ⟨h1, rfl, (h2 rfl).1⟩

/-! ### Claim C7 -/

/-- Claim C7 counterexample: the claim says every mutation preserves
ChannelStrengths ∈ [0,200], but the power-update notification handler copies
the raw payload bytes into the strengths without clamping
(`device.py:433-434`), so a notification carrying byte 201 drives
`channel_a` to 201 > 200 from an in-range state. -/
theorem C7_counterexample :
    strengthsInRange demoDevice.strengths_a demoDevice.strengths_b ∧
    (handleStatusNotification demoDevice [CMD_POWER_UPDATE, 0, 201, 0]).1.strengths_a = 201 ∧
    ¬ strengthsInRange
        (handleStatusNotification demoDevice [CMD_POWER_UPDATE, 0, 201, 0]).1.strengths_a
        (handleStatusNotification demoDevice [CMD_POWER_UPDATE, 0, 201, 0]).1.strengths_b := by
  refine ⟨by decide, rfl, by decide⟩

/-- Claim C7 (amended): the ChannelStrengths range invariant [0,200] is
preserved by the optimistic local write of a disconnected `send_command` (and
by any `send_command`) whenever the supplied strengths are themselves in
range, and by a status notification whenever the payload strength bytes
`data[2]`, `data[3]` are at most 200; the handler copies those bytes
unclamped, so the notification case genuinely needs that bound. -/
theorem C7_strengths_range (s : CoyoteDevice)
    (hs : strengthsInRange s.strengths_a s.strengths_b) :
    (∀ st pul w, strengthsInRange st.channel_a st.channel_b →
      strengthsInRange (sendCommand s (some st) pul w).state.strengths_a
        (sendCommand s (some st) pul w).state.strengths_b) ∧
    (∀ pul w, strengthsInRange (sendCommand s none pul w).state.strengths_a
        (sendCommand s none pul w).state.strengths_b) ∧
    (∀ data, data.getD 2 0 ≤ 200 → data.getD 3 0 ≤ 200 →
      strengthsInRange (handleStatusNotification s data).1.strengths_a
        (handleStatusNotification s data).1.strengths_b) := by
  refine ⟨?_, ?_, ?_⟩
  · intro st pul w hst
    unfold sendCommand
    split_ifs <;> simp_all <;> exact hs
  · intro pul w
    unfold sendCommand
    split_ifs <;> exact hs
  · intro data h2 h3
    unfold handleStatusNotification
    split_ifs <;> first | exact ⟨h2, h3⟩ | exact hs

/-- Claim C7 witness: the amended theorem at the fresh device: an in-range
optimistic write and an in-range notification both keep the invariant. -/
theorem C7_witness :
    strengthsInRange demoDevice.strengths_a demoDevice.strengths_b ∧
    strengthsInRange (sendCommand demoDevice (some ⟨150, 200⟩) none false).state.strengths_a
      (sendCommand demoDevice (some ⟨150, 200⟩) none false).state.strengths_b ∧
    strengthsInRange
      (handleStatusNotification demoDevice [CMD_POWER_UPDATE, 0, 200, 7]).1.strengths_a
      (handleStatusNotification demoDevice [CMD_POWER_UPDATE, 0, 200, 7]).1.strengths_b := by
  obtain ⟨h1, -, h3⟩ := C7_strengths_range demoDevice (by decide)
  exact ⟨by decide, h1 ⟨150, 200⟩ none false (by decide),
    h3 [CMD_POWER_UPDATE, 0, 200, 7] (by decide) (by decide)⟩

/-! ### Claim C8 -/

/-- Claim C8: the cached-address discard happens exactly once.  Below the
threshold, a cached-path connect failure only bumps the counter (no settings
write); the third consecutive cached-path failure clears the stored address,
resets the counter and skip credits with it, and performs exactly one settings
write; once the address is cleared, further connect failures leave the stored
and persisted address and the write count untouched; the interleaved miss
scans (cached phase) never write; and only a fresh match
(`_remember_device_address(some addr)`) persists an address again. -/
theorem C8_cached_address_cleared_once (s : CoyoteDevice) (now : ℚ)
    (win scanOk writeOk : Bool) :
    (s.using_cached_address = true → s.last_device_address.isSome →
      s.cached_connect_failure_count + 1 < 3 →
      (onConnectFailure s now win scanOk writeOk).cached_connect_failure_count
          = s.cached_connect_failure_count + 1 ∧
      (onConnectFailure s now win scanOk writeOk).last_device_address
          = s.last_device_address ∧
      (onConnectFailure s now win scanOk writeOk).persisted_address
          = s.persisted_address ∧
      (onConnectFailure s now win scanOk writeOk).settingsWrites = s.settingsWrites) ∧
    (s.using_cached_address = true → s.last_device_address.isSome →
      s.cached_connect_failure_count = 2 →
      (onConnectFailure s now win scanOk writeOk).last_device_address = none ∧
      (onConnectFailure s now win scanOk writeOk).persisted_address = "" ∧
      (onConnectFailure s now win scanOk writeOk).cached_connect_failure_count = 0 ∧
      (onConnectFailure s now win scanOk writeOk).settingsWrites
          = s.settingsWrites + 1) ∧
    (s.last_device_address = none →
      (onConnectFailure s now win scanOk writeOk).last_device_address = none ∧
      (onConnectFailure s now win scanOk writeOk).persisted_address
          = s.persisted_address ∧
      (onConnectFailure s now win scanOk writeOk).settingsWrites = s.settingsWrites) ∧
    ((scanCachedPhase s win).1.settingsWrites = s.settingsWrites ∧
     (scanCachedPhase s win).1.persisted_address = s.persisted_address ∧
     (scanCachedPhase s win).1.last_device_address = s.last_device_address) ∧
    (∀ a, (rememberDeviceAddress s (some a)).last_device_address = some a ∧
          (rememberDeviceAddress s (some a)).persisted_address = a ∧
          (rememberDeviceAddress s (some a)).cached_connect_failure_count = 0 ∧
          (rememberDeviceAddress s (some a)).skip_cached_reconnect_scans = 0) := by
  refine ⟨?_, ?_, ?_, ?_, ?_⟩
  · intro hu ha hcount
    obtain ⟨hc1, hc2, hc3, hc4, -, -⟩ :=
      cachedFailureUpdate_below
        { s with connect_failure_streak := s.connect_failure_streak + 1 } hu ha hcount
    obtain ⟨hp1, hp2, hp3, hp4⟩ := bookkeeping_proj s win
    unfold onConnectFailure
    rw [recover_cached_count_eq, recover_address_eq, recover_persisted_eq,
      recover_writes_eq, hp1, hp2, hp3, hp4]
    exact ⟨hc1, hc2, hc3, hc4⟩
  · intro hu ha hcount
    obtain ⟨hc1, hc2, hc3, hc4, -, -⟩ :=
      cachedFailureUpdate_threshold
        { s with connect_failure_streak := s.connect_failure_streak + 1 } hu ha hcount
    obtain ⟨hp1, hp2, hp3, hp4⟩ := bookkeeping_proj s win
    unfold onConnectFailure
    rw [recover_address_eq, recover_persisted_eq, recover_cached_count_eq,
      recover_writes_eq, hp1, hp2, hp3, hp4]
    exact ⟨hc1, hc2, hc3, hc4⟩
  · intro ha
    have hno := cachedFailureUpdate_noaddr
      { s with connect_failure_streak := s.connect_failure_streak + 1 } ha
    obtain ⟨-, hp2, hp3, hp4⟩ := bookkeeping_proj s win
    unfold onConnectFailure
    rw [recover_address_eq, recover_persisted_eq, recover_writes_eq,
      hp2, hp3, hp4, hno]
    exact ⟨ha, rfl, rfl⟩
  · unfold scanCachedPhase
    split_ifs <;> exact ⟨rfl, rfl, rfl⟩
  · intro a
    exact ⟨rfl, rfl, rfl, rfl⟩

/-- A device bound to the cached address that has already failed twice on it. -/
def demoCachedTwice : CoyoteDevice :=
  { demoDevice with last_device_address := some "AA:BB:CC:DD:EE:FF",
                    persisted_address := "AA:BB:CC:DD:EE:FF",
                    using_cached_address := true,
                    cached_connect_failure_count := 2,
                    client := some false }

/-- Claim C8 witness: the theorem at `demoCachedTwice`: the third cached-path
failure clears the address with exactly one settings write, and a subsequent
failure from the cleared state writes nothing. -/
theorem C8_witness :
    demoCachedTwice.using_cached_address = true ∧
    demoCachedTwice.last_device_address.isSome ∧
    demoCachedTwice.cached_connect_failure_count = 2 ∧
    ((onConnectFailure demoCachedTwice 0 false false true).last_device_address = none ∧
     (onConnectFailure demoCachedTwice 0 false false true).persisted_address = "" ∧
     (onConnectFailure demoCachedTwice 0 false false true).cached_connect_failure_count = 0 ∧
     (onConnectFailure demoCachedTwice 0 false false true).settingsWrites
        = demoCachedTwice.settingsWrites + 1) ∧
    ((onConnectFailure (onConnectFailure demoCachedTwice 0 false false true) 1 false false true).settingsWrites
        = (onConnectFailure demoCachedTwice 0 false false true).settingsWrites) := by
  have h1 := (C8_cached_address_cleared_once demoCachedTwice 0 false false true).2.1
    rfl (by decide) rfl
  have h2 := ((C8_cached_address_cleared_once
      (onConnectFailure demoCachedTwice 0 false false true) 1 false false true).2.2.1 h1.1).2.2
  exact ⟨rfl, by decide, rfl, h1, h2⟩

/-! ### Claim C9 -/

/-- One iteration body of `update_loop` (`device.py:847-873`): nothing runs
unless the running flag holds; when it does and the tick source yields a
packet, the packet is forwarded through `send_command`. -/
def updateLoopStep (s : CoyoteDevice) (duePulses : Option CoyotePulses)
    (writeOk : Bool) : CoyoteDevice :=
  if s.running then
    match duePulses with
    | some p => (sendCommand s none (some p) writeOk).state
    | none => s
  else s

/-- Claim C9: every internal teardown with a live client object —
`_disconnect_client` itself, and transient-failure recovery and the connect
failure path, both of which call it — forces the running flag to False; no
operation of the reconnect path (recovery, connect failure handling, the
cached-scan phase, connect success, address persistence, `send_command`, the
notification handler, the update-loop body itself) ever raises it back to
True; the update-loop body is inert once the flag is down; only
`start_updates` sets it. -/
theorem C9_teardown_stops_update_loop :
    (∀ s w, s.client.isSome → (disconnectClient s w).running = false) ∧
    (∀ s now e win sc w, s.client.isSome →
      (recoverFromTransientFailure s now e win sc w).running = false) ∧
    (∀ s now e win sc w,
      (recoverFromTransientFailure s now e win sc w).running = true → s.running = true) ∧
    (∀ s now win sc w, s.client.isSome →
      (onConnectFailure s now win sc w).running = false) ∧
    (∀ s now win sc w,
      (onConnectFailure s now win sc w).running = true → s.running = true) ∧
    (∀ s w, (forceDisconnectStep s w).running = true → s.running = true) ∧
    (∀ s w, (unexpectedDisconnectStep s w).running = true → s.running = true) ∧
    (∀ s win, (scanCachedPhase s win).1.running = s.running) ∧
    (∀ s, (onConnectSuccess s).running = s.running) ∧
    (∀ s a, (rememberDeviceAddress s a).running = s.running) ∧
    (∀ s str pul w, (sendCommand s str pul w).state.running = s.running) ∧
    (∀ s data, (handleStatusNotification s data).1.running = s.running) ∧
    (∀ s d w, s.running = false → updateLoopStep s d w = s) ∧
    (∀ s d w, (updateLoopStep s d w).running = s.running) ∧
    (∀ s, (startUpdates s).running = true) := by
  refine ⟨disconnectClient_running, recover_running_of_some, recover_running_mono,
    ?_, ?_, ?_, ?_, ?_, ?_, ?_, sendCommand_state_running, ?_, ?_, ?_, fun s => rfl⟩
  · intro s now win sc w h
    unfold onConnectFailure
    apply recover_running_of_some
    rw [Option.isSome_iff_exists] at h ⊢
    rw [bookkeeping_client]
    exact h
  · intro s now win sc w h
    unfold onConnectFailure at h
    have h2 := recover_running_mono _ _ _ _ _ _ h
    rw [bookkeeping_running] at h2
    exact h2
  · intro s w
    unfold forceDisconnectStep
    split_ifs with h
    · intro h2
      exact disconnectClient_running_mono { s with force_disconnect := false } w h2
    · exact fun h2 => h2
  · intro s w
    unfold unexpectedDisconnectStep
    split_ifs with h
    · intro h2
      exact disconnectClient_running_mono s w h2
    · exact fun h2 => h2
  · intro s win
    unfold scanCachedPhase
    split_ifs <;> rfl
  · intro s
    rfl
  · intro s a
    rfl
  · intro s data
    unfold handleStatusNotification
    split_ifs <;> rfl
  · intro s d w h
    unfold updateLoopStep
    rw [h]
    simp
  · intro s d w
    unfold updateLoopStep
    split_ifs with h
    · cases d
      · rfl
      · simp [sendCommand_state_running, h]
    · rfl

/-- Claim C9 witness: the theorem's teardown clause at a connected running
device: after `_disconnect_client` the running flag is down, and the inert
update-loop body leaves the state unchanged. -/
theorem C9_witness :
    ({ demoConnected with running := true } : CoyoteDevice).client.isSome ∧
    (disconnectClient { demoConnected with running := true } true).running = false ∧
    updateLoopStep (disconnectClient { demoConnected with running := true } true)
        (some zeroPulses) true
      = disconnectClient { demoConnected with running := true } true := by
  refine ⟨by decide, C9_teardown_stops_update_loop.1 _ true (by decide), ?_⟩
  exact C9_teardown_stops_update_loop.2.2.2.2.2.2.2.2.2.2.2.2.1 _ (some zeroPulses) true
    (C9_teardown_stops_update_loop.1 _ true (by decide))

end Coyote
